import Mathlib

/-!
Shallow embedding of the cart reducer and cart synchronizer of the
advance_redux shopping-cart application.

The reducer (`replaceCart`, `addItem`, `removeItem`) is embedded from
`cartSlice.reducers`; the synchronizer thunks (`fetchcartData`,
`sendCartData`) are embedded as functions from the outcome of the single
network call to the list of effect events (dispatches and requests) they
perform, following `features/cart/cartActions.js`.

JS numbers used for prices and quantities are embedded as `Int`
(quantities and the totals only ever see integer arithmetic here, and the
negativity claims need signed values).  `state.items.find(...)` is
`List.find?`; mutation of the object returned by `find` is `updateFirst`,
which rewrites the first matching element of the list.
-/

structure CartLine where
  id : String
  name : String
  price : Int
  quantity : Int
  totalPrice : Int
deriving Repr, DecidableEq

structure CartState where
  items : List CartLine
  totalQuantity : Int
  changed : Bool
deriving Repr, DecidableEq

/-- `initialState` of `cartSlice`: `{items: [], totalQuantity: 0, changed: false}`. -/
def initialState : CartState :=
  { items := [], totalQuantity := 0, changed := false }

/-- Payload of `addItem`, as built by the callers (`ProductItem` omits
`quantity`, `CartItem` passes it), hence the `Option`. -/
structure AddPayload where
  id : String
  price : Int
  title : String
  quantity : Option Int
deriving Repr, DecidableEq

/-- Payload of `replaceCart`. -/
structure ReplacePayload where
  items : List CartLine
  totalQuantity : Int
deriving Repr, DecidableEq

/-- Rewrite the first element satisfying `p` by `f`, leaving the rest
unchanged: the effect of mutating the object returned by `Array.find`. -/
def updateFirst (p : CartLine → Bool) (f : CartLine → CartLine) :
    List CartLine → List CartLine
  | [] => []
  | i :: rest => if p i then f i :: rest else i :: updateFirst p f rest

/-- `cartSlice.reducers.replaceCart`: overwrite `totalQuantity` and `items`
from the payload; `changed` is not touched. -/
def replaceCart (state : CartState) (payload : ReplacePayload) : CartState :=
  { state with totalQuantity := payload.totalQuantity, items := payload.items }

/-- `cartSlice.reducers.addItem`. -/
def addItem (state : CartState) (item : AddPayload) : CartState :=
  match state.items.find? (fun i => i.id == item.id) with
  | none =>
    { items := state.items ++
        [{ id := item.id, name := item.title, price := item.price,
           quantity := 1, totalPrice := item.price }],
      totalQuantity := state.totalQuantity + 1,
      changed := true }
  | some _ =>
    { items := updateFirst (fun i => i.id == item.id)
        (fun i => { i with quantity := i.quantity + 1,
                           totalPrice := i.totalPrice + item.price })
        state.items,
      totalQuantity := state.totalQuantity + 1,
      changed := true }

/-- `cartSlice.reducers.removeItem`. -/
def removeItem (state : CartState) (itemId : String) : CartState :=
  match state.items.find? (fun i => i.id == itemId) with
  | none => state
  | some existingItem =>
    if existingItem.quantity == 1 then
      { items := state.items.filter (fun i => !(i.id == itemId)),
        totalQuantity := state.totalQuantity - 1,
        changed := true }
    else
      { items := updateFirst (fun i => i.id == itemId)
          (fun i => { i with quantity := i.quantity - 1,
                             totalPrice := i.totalPrice - i.price })
          state.items,
        totalQuantity := state.totalQuantity - 1,
        changed := true }

/-- The user-triggered mutations of the cart slice. -/
inductive CartAction where
  | add : AddPayload → CartAction
  | remove : String → CartAction
deriving Repr, DecidableEq

def step (s : CartState) : CartAction → CartState
  | .add p => addItem s p
  | .remove i => removeItem s i

/-- Run a sequence of `addItem`/`removeItem` actions from the initial state. -/
def run (acts : List CartAction) : CartState :=
  acts.foldl step initialState

/-- Sum of the line quantities of a list of cart lines. -/
def sumQty (items : List CartLine) : Int :=
  (items.map (fun l => l.quantity)).sum

/-!
The synchronizer thunks of `cartActions.js` perform, in order, dispatches
(of `uiActions.showNotification` or `cartActions.replaceCart`) and network
requests.  They are embedded as functions from the outcome of their single
network call to the list of effect events performed.
-/

/-- One effect performed by a thunk: a notification dispatch (status,
title, message), a `replaceCart` dispatch, the GET of `fetchcartData`, or
the PUT of `sendCartData` with its serialized body. -/
inductive Event where
  | notif : String → String → String → Event
  | dispatchReplaceCart : ReplacePayload → Event
  | readRequest : Event
  | writeRequest : List CartLine → Int → Event
deriving Repr, DecidableEq

/-- Outcome of the GET in `fetchcartData`: either the decoded JSON body
(whose `items` key may be absent, hence `cartData.items || []`), or a
failure (network error thrown, or a non-ok response). -/
inductive FetchOutcome where
  | success : Option (List CartLine) → Int → FetchOutcome
  | failure : FetchOutcome
deriving Repr, DecidableEq

/-- `fetchcartData`: GET the remote cart; on success dispatch `replaceCart`
with `cartData.items || []` and `cartData.totalQuantity`; on failure the
catch block dispatches a single error notification. -/
def fetchcartData : FetchOutcome → List Event
  | .success items totalQuantity =>
    [Event.readRequest,
     Event.dispatchReplaceCart { items := items.getD [], totalQuantity := totalQuantity }]
  | .failure =>
    [Event.readRequest,
     Event.notif "error" "Error!⚠️" "Fetching cart data failed❌⚠️"]

/-- `sendCartData cart ok`: dispatch a pending notification, PUT the
`{items, totalQuantity}` snapshot, then dispatch a success notification if
the PUT succeeded (`ok = true`) or the catch block's error notification if
it threw or returned non-ok (`ok = false`). -/
def sendCartData (cart : CartState) (ok : Bool) : List Event :=
  [Event.notif "pending" "Sending request.. ⏳" "Sending cart data! 🛒⌛",
   Event.writeRequest cart.items cart.totalQuantity] ++
  (if ok then
    [Event.notif "success" "Success! 🎉" "Cart data sent successfully ✅🛒"]
   else
    [Event.notif "error" "Error!⚠️" "Sending cart data failed❌⚠️"])

/-- Effect of a thunk's events on the cart slice: only a dispatched cart
action changes it; notifications and network requests do not. -/
def applyEvent (s : CartState) : Event → CartState
  | .dispatchReplaceCart payload => replaceCart s payload
  | _ => s

/-- The cart state after a thunk's events have all been dispatched. -/
def applyEvents (s : CartState) (evts : List Event) : CartState :=
  evts.foldl applyEvent s

/-- The notification statuses dispatched by a trace, in order. -/
def notifStatuses : List Event → List String
  | [] => []
  | Event.notif status _ _ :: rest => status :: notifStatuses rest
  | _ :: rest => notifStatuses rest

/-- The PUT bodies issued by a trace, in order. -/
def writes : List Event → List (List CartLine × Int)
  | [] => []
  | Event.writeRequest items tq :: rest => (items, tq) :: writes rest
  | _ :: rest => writes rest

/-- The cart actions dispatched by a trace, in order. -/
def cartDispatches : List Event → List ReplacePayload
  | [] => []
  | Event.dispatchReplaceCart p :: rest => p :: cartDispatches rest
  | _ :: rest => cartDispatches rest

/-! ### Helper lemmas about `updateFirst` and `sumQty` -/

lemma sumQty_nil : sumQty [] = 0 := rfl

lemma sumQty_cons (i : CartLine) (l : List CartLine) :
    sumQty (i :: l) = i.quantity + sumQty l := by
  simp [sumQty]

lemma sumQty_append (l₁ l₂ : List CartLine) :
    sumQty (l₁ ++ l₂) = sumQty l₁ + sumQty l₂ := by
  simp [sumQty]

lemma sumQty_nonneg (l : List CartLine) (h : ∀ i ∈ l, 0 ≤ i.quantity) :
    0 ≤ sumQty l := by
  refine List.sum_nonneg ?_
  intro x hx
  rcases List.mem_map.mp hx with ⟨i, hi, rfl⟩
  exact h i hi

lemma sumQty_updateFirst (q : CartLine → Bool) (f : CartLine → CartLine)
    (l : List CartLine) (e : CartLine) (hfind : l.find? q = some e) :
    sumQty (updateFirst q f l) = sumQty l - e.quantity + (f e).quantity := by
  induction l with
  | nil => simp [List.find?] at hfind
  | cons i rest ih =>
    by_cases hq : q i
    · rw [List.find?_cons_of_pos _ hq] at hfind
      cases hfind
      simp [updateFirst, hq, sumQty_cons]
      ring
    · rw [List.find?_cons_of_neg _ hq] at hfind
      simp [updateFirst, hq, sumQty_cons, ih hfind]
      ring

lemma mem_updateFirst_cases (q : CartLine → Bool) (f : CartLine → CartLine)
    (l : List CartLine) (a : CartLine) (h : a ∈ updateFirst q f l) :
    a ∈ l ∨ ∃ b, l.find? q = some b ∧ a = f b := by
  induction l with
  | nil => simp [updateFirst] at h
  | cons i rest ih =>
    by_cases hq : q i
    · simp only [updateFirst, hq, if_pos] at h
      rcases List.mem_cons.mp h with rfl | hmem
      · exact Or.inr ⟨i, List.find?_cons_of_pos _ hq, rfl⟩
      · exact Or.inl (List.mem_cons_of_mem _ hmem)
    · simp only [updateFirst, hq, if_neg, Bool.false_eq_true, not_false_iff] at h
      rcases List.mem_cons.mp h with rfl | hmem
      · exact Or.inl (List.mem_cons_self _ _)
      · rcases ih hmem with hl | ⟨b, hb, rfl⟩
        · exact Or.inl (List.mem_cons_of_mem _ hl)
        · exact Or.inr ⟨b, by rw [List.find?_cons_of_neg _ hq]; exact hb, rfl⟩

lemma map_updateFirst_of_preserved {β : Type} (g : CartLine → β)
    (q : CartLine → Bool) (f : CartLine → CartLine) (l : List CartLine)
    (hf : ∀ i, g (f i) = g i) :
    (updateFirst q f l).map g = l.map g := by
  induction l with
  | nil => rfl
  | cons i rest ih =>
    by_cases hq : q i
    · simp [updateFirst, hq, hf]
    · simp [updateFirst, hq, ih]

lemma find?_updateFirst (q : CartLine → Bool) (f : CartLine → CartLine)
    (l : List CartLine) (e : CartLine) (hfind : l.find? q = some e)
    (hfe : q (f e) = true) :
    (updateFirst q f l).find? q = some (f e) := by
  induction l with
  | nil => simp [List.find?] at hfind
  | cons i rest ih =>
    by_cases hq : q i
    · rw [List.find?_cons_of_pos _ hq] at hfind
      cases hfind
      simp [updateFirst, hq, List.find?_cons_of_pos _ hfe]
    · rw [List.find?_cons_of_neg _ hq] at hfind
      simp only [updateFirst, hq, if_neg, Bool.false_eq_true, not_false_iff]
      rw [List.find?_cons_of_neg _ hq]
      exact ih hfind

lemma sumQty_filter_of_find? (x : String) (l : List CartLine) (e : CartLine)
    (hfind : l.find? (fun i => i.id == x) = some e)
    (hnd : (l.map (fun i => i.id)).Nodup) :
    sumQty (l.filter (fun i => !(i.id == x))) = sumQty l - e.quantity := by
  induction l with
  | nil => simp [List.find?] at hfind
  | cons i rest ih =>
    by_cases hq : (i.id == x) = true
    · rw [List.find?_cons, hq] at hfind
      cases hfind
      have hx : e.id = x := by simpa using hq
      have hhead : e.id ∉ rest.map (fun i => i.id) := by
        rw [List.map_cons] at hnd
        exact (List.nodup_cons.mp hnd).1
      have hrest : ∀ b ∈ rest, (!(b.id == x)) = true := by
        intro b hb
        have hne : e.id ≠ b.id := by
          intro hcontra
          exact hhead (by
            rw [hcontra]
            exact List.mem_map_of_mem (fun i => i.id) hb)
        simp only [Bool.not_eq_true', beq_eq_false_iff_ne]
        intro hbx
        exact hne (by rw [hx, hbx])
      have : rest.filter (fun i => !(i.id == x)) = rest :=
        List.filter_eq_self.mpr hrest
      simp [List.filter_cons, hq, this, sumQty_cons]
    · rw [List.find?_cons, Bool.not_eq_true _ |>.mp hq] at hfind
      have hnd' : (rest.map (fun i => i.id)).Nodup :=
        (List.nodup_cons.mp (by simpa using hnd)).2
      simp [List.filter_cons, hq, sumQty_cons, ih hfind hnd']
      ring

/-! ### Branch equations for the reducers -/

lemma addItem_of_not_found (s : CartState) (p : AddPayload)
    (h : s.items.find? (fun i => i.id == p.id) = none) :
    addItem s p =
      { items := s.items ++
          [{ id := p.id, name := p.title, price := p.price,
             quantity := 1, totalPrice := p.price }],
        totalQuantity := s.totalQuantity + 1,
        changed := true } := by
  unfold addItem
  rw [h]

lemma addItem_of_found (s : CartState) (p : AddPayload) (e : CartLine)
    (h : s.items.find? (fun i => i.id == p.id) = some e) :
    addItem s p =
      { items := updateFirst (fun i => i.id == p.id)
          (fun i => { i with quantity := i.quantity + 1,
                             totalPrice := i.totalPrice + p.price })
          s.items,
        totalQuantity := s.totalQuantity + 1,
        changed := true } := by
  unfold addItem
  rw [h]

lemma removeItem_of_not_found (s : CartState) (x : String)
    (h : s.items.find? (fun i => i.id == x) = none) :
    removeItem s x = s := by
  unfold removeItem
  rw [h]

lemma removeItem_of_found_one (s : CartState) (x : String) (e : CartLine)
    (h : s.items.find? (fun i => i.id == x) = some e)
    (h1 : e.quantity = 1) :
    removeItem s x =
      { items := s.items.filter (fun i => !(i.id == x)),
        totalQuantity := s.totalQuantity - 1,
        changed := true } := by
  unfold removeItem
  rw [h]
  simp [h1]

lemma removeItem_of_found_many (s : CartState) (x : String) (e : CartLine)
    (h : s.items.find? (fun i => i.id == x) = some e)
    (h1 : e.quantity ≠ 1) :
    removeItem s x =
      { items := updateFirst (fun i => i.id == x)
          (fun i => { i with quantity := i.quantity - 1,
                             totalPrice := i.totalPrice - i.price })
          s.items,
        totalQuantity := s.totalQuantity - 1,
        changed := true } := by
  unfold removeItem
  rw [h]
  simp [h1]

/-! ### The reachable-state invariant of the cart reducer -/

/-- Invariant of reachable cart states: `totalQuantity` equals the sum of
line quantities, every line quantity is at least 1, and line ids are
pairwise distinct. -/
def goodState (s : CartState) : Prop :=
  s.totalQuantity = sumQty s.items ∧
  (∀ l ∈ s.items, 1 ≤ l.quantity) ∧
  (s.items.map (fun l => l.id)).Nodup

lemma goodState_initial : goodState initialState := by
  refine ⟨rfl, ?_, ?_⟩ <;> simp [initialState]

lemma goodState_mk (items : List CartLine) (tq : Int) (c : Bool) :
    goodState { items := items, totalQuantity := tq, changed := c } ↔
      (tq = sumQty items ∧ (∀ l ∈ items, 1 ≤ l.quantity) ∧
        (items.map (fun l => l.id)).Nodup) :=
  Iff.rfl

lemma goodState_addItem (s : CartState) (p : AddPayload) (h : goodState s) :
    goodState (addItem s p) := by
  obtain ⟨hsum, hqty, hnd⟩ := h
  cases hfind : s.items.find? (fun i => i.id == p.id) with
  | none =>
    rw [addItem_of_not_found s p hfind, goodState_mk]
    refine ⟨?_, ?_, ?_⟩
    · simp only [sumQty_append, sumQty_cons, sumQty_nil]
      omega
    · intro l hl
      rcases List.mem_append.mp hl with hmem | hmem
      · exact hqty l hmem
      · simp only [List.mem_singleton] at hmem
        subst hmem
        exact le_refl 1
    · simp only [List.map_append, List.map_cons, List.map_nil]
      rw [List.nodup_append]
      refine ⟨hnd, List.nodup_singleton _, ?_⟩
      intro a ha hb
      simp only [List.mem_singleton] at hb
      subst hb
      rcases List.mem_map.mp ha with ⟨i, hi, hieq⟩
      have := List.find?_eq_none.mp hfind i hi
      simp only [beq_iff_eq] at this
      exact this (by rw [← hieq])
  | some e =>
    rw [addItem_of_found s p e hfind, goodState_mk]
    have hesum := sumQty_updateFirst (fun i => i.id == p.id)
      (fun i => { i with quantity := i.quantity + 1,
                         totalPrice := i.totalPrice + p.price })
      s.items e hfind
    refine ⟨?_, ?_, ?_⟩
    · rw [hesum]
      show s.totalQuantity + 1 = sumQty s.items - e.quantity + (e.quantity + 1)
      omega
    · intro l hl
      rcases mem_updateFirst_cases _ _ _ _ hl with hmem | ⟨b, hb, rfl⟩
      · exact hqty l hmem
      · rw [hfind] at hb
        injection hb with hb
        have hbmem : b ∈ s.items := hb ▸ List.mem_of_find?_eq_some hfind
        have := hqty b hbmem
        show 1 ≤ b.quantity + 1
        omega
    · have hmap := map_updateFirst_of_preserved (fun l => l.id)
        (fun i => i.id == p.id)
        (fun i => { i with quantity := i.quantity + 1,
                           totalPrice := i.totalPrice + p.price })
        s.items (fun i => rfl)
      rw [hmap]
      exact hnd

lemma goodState_removeItem (s : CartState) (x : String) (h : goodState s) :
    goodState (removeItem s x) := by
  obtain ⟨hsum, hqty, hnd⟩ := h
  cases hfind : s.items.find? (fun i => i.id == x) with
  | none =>
    rw [removeItem_of_not_found s x hfind]
    exact ⟨hsum, hqty, hnd⟩
  | some e =>
    by_cases hone : e.quantity = 1
    · rw [removeItem_of_found_one s x e hfind hone, goodState_mk]
      refine ⟨?_, ?_, ?_⟩
      · rw [sumQty_filter_of_find? x s.items e hfind hnd]
        omega
      · intro l hl
        exact hqty l (List.mem_of_mem_filter hl)
      · exact List.Nodup.sublist
          (List.Sublist.map _ (List.filter_sublist s.items)) hnd
    · rw [removeItem_of_found_many s x e hfind hone, goodState_mk]
      have hesum := sumQty_updateFirst (fun i => i.id == x)
        (fun i => { i with quantity := i.quantity - 1,
                           totalPrice := i.totalPrice - i.price })
        s.items e hfind
      refine ⟨?_, ?_, ?_⟩
      · rw [hesum]
        show s.totalQuantity - 1 = sumQty s.items - e.quantity + (e.quantity - 1)
        omega
      · intro l hl
        rcases mem_updateFirst_cases _ _ _ _ hl with hmem | ⟨b, hb, rfl⟩
        · exact hqty l hmem
        · rw [hfind] at hb
          injection hb with hb
          have hbmem : b ∈ s.items := hb ▸ List.mem_of_find?_eq_some hfind
          have h1 := hqty b hbmem
          have hb1 : b.quantity ≠ 1 := hb ▸ hone
          show 1 ≤ b.quantity - 1
          omega
      · have hmap := map_updateFirst_of_preserved (fun l => l.id)
          (fun i => i.id == x)
          (fun i => { i with quantity := i.quantity - 1,
                             totalPrice := i.totalPrice - i.price })
          s.items (fun i => rfl)
        rw [hmap]
        exact hnd

lemma goodState_step (s : CartState) (a : CartAction) (h : goodState s) :
    goodState (step s a) := by
  cases a with
  | add p => exact goodState_addItem s p h
  | remove x => exact goodState_removeItem s x h

lemma goodState_foldl (acts : List CartAction) (s : CartState) (h : goodState s) :
    goodState (acts.foldl step s) := by
  induction acts generalizing s with
  | nil => exact h
  | cons a rest ih => exact ih (step s a) (goodState_step s a h)

lemma goodState_run (acts : List CartAction) : goodState (run acts) :=
  goodState_foldl acts initialState goodState_initial

/-! ### Claim theorems -/

/-- C1: for every sequence of `addItem`/`removeItem` actions applied to the
initial cart state, `totalQuantity` equals the sum of the line quantities,
no line's quantity is negative, and `totalQuantity` is never negative. -/
theorem C1_cart_quantity_invariant (acts : List CartAction) :
    (run acts).totalQuantity = sumQty (run acts).items ∧
    (∀ l ∈ (run acts).items, 0 ≤ l.quantity) ∧
    0 ≤ (run acts).totalQuantity := by
  obtain ⟨hsum, hqty, _⟩ := goodState_run acts
  have hnn : ∀ l ∈ (run acts).items, (0 : Int) ≤ l.quantity :=
    fun l hl => le_trans (by norm_num) (hqty l hl)
  exact ⟨hsum, hnn, by rw [hsum]; exact sumQty_nonneg _ hnn⟩

/-- C4: `addItem` increments `totalQuantity` by exactly 1 and sets
`changed = true`; with no matching line it appends
`{id, name: title, price, quantity: 1, totalPrice: price}`; with a
matching line it increments that line's quantity by 1; and from the empty
cart `addItem({id:"p1", price:6, title:"Product 1"})` yields exactly the
one-line cart of the scenario. -/
theorem C4_addItem_functional (s : CartState) (p : AddPayload) :
    (addItem s p).totalQuantity = s.totalQuantity + 1 ∧
    (addItem s p).changed = true ∧
    (s.items.find? (fun i => i.id == p.id) = none →
      (addItem s p).items = s.items ++
        [{ id := p.id, name := p.title, price := p.price,
           quantity := 1, totalPrice := p.price }]) ∧
    (∀ e, s.items.find? (fun i => i.id == p.id) = some e →
      ∃ l, (addItem s p).items.find? (fun i => i.id == p.id) = some l ∧
        l.quantity = e.quantity + 1) ∧
    addItem initialState { id := "p1", price := 6, title := "Product 1", quantity := none } =
      { items := [{ id := "p1", name := "Product 1", price := 6,
                    quantity := 1, totalPrice := 6 }],
        totalQuantity := 1, changed := true } := by
  refine ⟨?_, ?_, ?_, ?_, ?_⟩
  · cases hfind : s.items.find? (fun i => i.id == p.id) with
    | none => rw [addItem_of_not_found s p hfind]
    | some e => rw [addItem_of_found s p e hfind]
  · cases hfind : s.items.find? (fun i => i.id == p.id) with
    | none => rw [addItem_of_not_found s p hfind]
    | some e => rw [addItem_of_found s p e hfind]
  · intro h
    rw [addItem_of_not_found s p h]
  · intro e hfind
    rw [addItem_of_found s p e hfind]
    have hq := @List.find?_some _ (fun i => i.id == p.id) e s.items hfind
    exact ⟨_, find?_updateFirst _ _ s.items e hfind hq, rfl⟩
  · rfl

/-- C4 witness: both the append branch and the increment branch of
`C4_addItem_functional`, discharged at concrete carts. -/
theorem C4_addItem_functional_witness :
    ((addItem initialState { id := "p1", price := 6, title := "Product 1", quantity := none }).items =
      initialState.items ++
        [{ id := "p1", name := "Product 1", price := 6, quantity := 1, totalPrice := 6 }]) ∧
    (∃ l, (addItem { items := [{ id := "p1", name := "Product 1", price := 6,
                                 quantity := 1, totalPrice := 6 }],
                     totalQuantity := 1, changed := true }
             { id := "p1", price := 6, title := "Product 1", quantity := none }).items.find?
          (fun i => i.id == "p1") = some l ∧
        l.quantity = 1 + 1) := by
  constructor
  · exact (C4_addItem_functional initialState
      { id := "p1", price := 6, title := "Product 1", quantity := none }).2.2.1 rfl
  · exact (C4_addItem_functional
      { items := [{ id := "p1", name := "Product 1", price := 6,
                    quantity := 1, totalPrice := 6 }],
        totalQuantity := 1, changed := true }
      { id := "p1", price := 6, title := "Product 1", quantity := none }).2.2.2.1
      { id := "p1", name := "Product 1", price := 6, quantity := 1, totalPrice := 6 } rfl

/-- C5: `removeItem` with an id not present in `items` is a no-op: the
resulting state equals the prior state. -/
theorem C5_removeItem_noop (s : CartState) (x : String)
    (h : ∀ l ∈ s.items, l.id ≠ x) :
    removeItem s x = s := by
  have hfind : s.items.find? (fun i => i.id == x) = none :=
    List.find?_eq_none.mpr (fun l hl => by simpa using h l hl)
  exact removeItem_of_not_found s x hfind

/-- C5 witness: removing the absent id "p2" from a one-line cart leaves the
state unchanged. -/
theorem C5_removeItem_noop_witness :
    removeItem { items := [{ id := "p1", name := "Product 1", price := 6,
                             quantity := 1, totalPrice := 6 }],
                 totalQuantity := 1, changed := true } "p2" =
      { items := [{ id := "p1", name := "Product 1", price := 6,
                    quantity := 1, totalPrice := 6 }],
        totalQuantity := 1, changed := true } :=
  C5_removeItem_noop _ "p2" (by decide)

/-- C6: `replaceCart` sets `items` and `totalQuantity` to exactly the
payload's values regardless of the prior state and leaves `changed`
exactly as it was. -/
theorem C6_replaceCart_frame (s : CartState) (p : ReplacePayload) :
    (replaceCart s p).items = p.items ∧
    (replaceCart s p).totalQuantity = p.totalQuantity ∧
    (replaceCart s p).changed = s.changed :=
  ⟨rfl, rfl, rfl⟩

/-- C7: on a state with no line of id `p.id`, `addItem` then `removeItem`
with that id restores `items` and `totalQuantity` to their prior values. -/
theorem C7_add_remove_inverse (s : CartState) (p : AddPayload)
    (h : ∀ l ∈ s.items, l.id ≠ p.id) :
    (removeItem (addItem s p) p.id).items = s.items ∧
    (removeItem (addItem s p) p.id).totalQuantity = s.totalQuantity := by
  have hfind : s.items.find? (fun i => i.id == p.id) = none :=
    List.find?_eq_none.mpr (fun l hl => by simpa using h l hl)
  rw [addItem_of_not_found s p hfind]
  have hq : (fun i => i.id == p.id)
      ({ id := p.id, name := p.title, price := p.price,
         quantity := 1, totalPrice := p.price } : CartLine) = true :=
    beq_self_eq_true p.id
  have hfind2 : ((s.items ++
      ([{ id := p.id, name := p.title, price := p.price,
          quantity := 1, totalPrice := p.price }] : List CartLine)).find?
        (fun i => i.id == p.id)) = some
      { id := p.id, name := p.title, price := p.price,
        quantity := 1, totalPrice := p.price } := by
    rw [List.find?_append, hfind]
    rw [@List.find?_cons_of_pos CartLine (fun i => i.id == p.id)
        { id := p.id, name := p.title, price := p.price,
          quantity := 1, totalPrice := p.price } [] hq]
    rfl
  rw [removeItem_of_found_one _ p.id _ hfind2 rfl]
  constructor
  · show (s.items ++
      ([{ id := p.id, name := p.title, price := p.price,
          quantity := 1, totalPrice := p.price }] : List CartLine)).filter
        (fun i => !(i.id == p.id)) = s.items
    rw [List.filter_append]
    have h1 : s.items.filter (fun i => !(i.id == p.id)) = s.items :=
      List.filter_eq_self.mpr (fun a ha => by
        simp only [Bool.not_eq_true', beq_eq_false_iff_ne]
        exact h a ha)
    have h2 : ([{ id := p.id, name := p.title, price := p.price,
                  quantity := 1, totalPrice := p.price }] : List CartLine).filter
        (fun i => !(i.id == p.id)) = [] := by
      simp [List.filter_cons, hq]
    rw [h1, h2, List.append_nil]
  · show s.totalQuantity + 1 - 1 = s.totalQuantity
    omega

/-- C7 witness: the inverse pair at a concrete one-line cart and the fresh
id "p1". -/
theorem C7_add_remove_inverse_witness :
    (removeItem (addItem
        { items := [{ id := "p0", name := "Product 0", price := 3,
                      quantity := 2, totalPrice := 6 }],
          totalQuantity := 2, changed := false }
        { id := "p1", price := 6, title := "Product 1", quantity := none }) "p1").items =
      [{ id := "p0", name := "Product 0", price := 3,
         quantity := 2, totalPrice := 6 }] ∧
    (removeItem (addItem
        { items := [{ id := "p0", name := "Product 0", price := 3,
                      quantity := 2, totalPrice := 6 }],
          totalQuantity := 2, changed := false }
        { id := "p1", price := 6, title := "Product 1", quantity := none }) "p1").totalQuantity = 2 :=
  C7_add_remove_inverse
    { items := [{ id := "p0", name := "Product 0", price := 3,
                  quantity := 2, totalPrice := 6 }],
      totalQuantity := 2, changed := false }
    { id := "p1", price := 6, title := "Product 1", quantity := none }
    (by decide)

/-- C10: the result of `addItem` does not depend on the payload's
`quantity` field: payloads agreeing on `id`, `price` and `title` produce
identical states. -/
theorem C10_addItem_ignores_payload_quantity (s : CartState) (p q : AddPayload)
    (hid : p.id = q.id) (hprice : p.price = q.price) (htitle : p.title = q.title) :
    addItem s p = addItem s q := by
  cases p with
  | mk pid pprice ptitle pqty =>
    cases q with
    | mk qid qprice qtitle qqty =>
      simp only at hid hprice htitle
      subst hid
      subst hprice
      subst htitle
      rfl

/-- C10 witness: the payloads `CartItem` sends (with a `quantity` field)
and `ProductItem` sends (without) yield the same state. -/
theorem C10_addItem_ignores_payload_quantity_witness :
    addItem initialState { id := "p1", price := 6, title := "Product 1", quantity := none } =
    addItem initialState { id := "p1", price := 6, title := "Product 1", quantity := some 5 } :=
  C10_addItem_ignores_payload_quantity initialState
    { id := "p1", price := 6, title := "Product 1", quantity := none }
    { id := "p1", price := 6, title := "Product 1", quantity := some 5 }
    rfl rfl rfl

/-- C2 counterexample: on a cart whose single line satisfies
`totalPrice == price * quantity`, an `addItem` for the same id with a
different payload price (7 instead of the stored 5) yields a line with
`totalPrice = 12` but `price * quantity = 10`: the payload price is not
ignored and the invariant is broken. -/
theorem C2_counterexample :
    (∀ l ∈ ({ items := [{ id := "p1", name := "Product 1", price := 5,
                          quantity := 1, totalPrice := 5 }],
              totalQuantity := 1, changed := false } : CartState).items,
        l.totalPrice = l.price * l.quantity) ∧
    ¬ (∀ l ∈ (addItem
          { items := [{ id := "p1", name := "Product 1", price := 5,
                        quantity := 1, totalPrice := 5 }],
            totalQuantity := 1, changed := false }
          { id := "p1", price := 7, title := "Product 1", quantity := none }).items,
        l.totalPrice = l.price * l.quantity) := by
  constructor
  · decide
  · decide

/-- C2 amended: when the id matches an existing line, the line's `id`,
`name` and stored `price` are unchanged (first-seen name and unit price
win for those fields), but the payload's price is not ignored: it is added
to `totalPrice`, so `totalPrice == price * quantity` is preserved provided
the payload's price equals the line's stored price. -/
theorem C2_addItem_invariant_same_price (s : CartState) (p : AddPayload) (e : CartLine)
    (hinv : ∀ l ∈ s.items, l.totalPrice = l.price * l.quantity)
    (hfind : s.items.find? (fun i => i.id == p.id) = some e)
    (hprice : p.price = e.price) :
    (∀ l ∈ (addItem s p).items, l.totalPrice = l.price * l.quantity) ∧
    (addItem s p).items.map (fun l => (l.id, l.name, l.price)) =
      s.items.map (fun l => (l.id, l.name, l.price)) := by
  rw [addItem_of_found s p e hfind]
  constructor
  · intro l hl
    rcases mem_updateFirst_cases _ _ _ _ hl with hmem | ⟨b, hb, rfl⟩
    · exact hinv l hmem
    · rw [hfind] at hb
      injection hb with hb
      have hbmem : b ∈ s.items := hb ▸ List.mem_of_find?_eq_some hfind
      have hbinv := hinv b hbmem
      have hbprice : p.price = b.price := hb ▸ hprice
      show b.totalPrice + p.price = b.price * (b.quantity + 1)
      rw [hbinv, hbprice]
      ring
  · exact map_updateFirst_of_preserved (fun l => (l.id, l.name, l.price))
      _ _ s.items (fun i => rfl)

/-- C2 witness: a repeat `addItem` with the same price 6 on the one-line
cart keeps the invariant and the identifying fields. -/
theorem C2_addItem_invariant_same_price_witness :
    (∀ l ∈ (addItem
        { items := [{ id := "p1", name := "Product 1", price := 6,
                      quantity := 1, totalPrice := 6 }],
          totalQuantity := 1, changed := true }
        { id := "p1", price := 6, title := "Product 1", quantity := none }).items,
      l.totalPrice = l.price * l.quantity) ∧
    (addItem
        { items := [{ id := "p1", name := "Product 1", price := 6,
                      quantity := 1, totalPrice := 6 }],
          totalQuantity := 1, changed := true }
        { id := "p1", price := 6, title := "Product 1", quantity := none }).items.map
      (fun l => (l.id, l.name, l.price)) =
    ({ items := [{ id := "p1", name := "Product 1", price := 6,
                   quantity := 1, totalPrice := 6 }],
       totalQuantity := 1, changed := true } : CartState).items.map
      (fun l => (l.id, l.name, l.price)) :=
  C2_addItem_invariant_same_price
    { items := [{ id := "p1", name := "Product 1", price := 6,
                  quantity := 1, totalPrice := 6 }],
      totalQuantity := 1, changed := true }
    { id := "p1", price := 6, title := "Product 1", quantity := none }
    { id := "p1", name := "Product 1", price := 6, quantity := 1, totalPrice := 6 }
    (by decide) rfl rfl

/-- C3 counterexample: after one `addItem` from the initial cart, applying
every action dispatched by a successful `sendCartData` of the current
state leaves `changed = true`, not `false`: the success branch dispatches
only a notification and never clears the dirty flag. -/
theorem C3_counterexample :
    ¬ ((applyEvents
        (addItem initialState { id := "p1", price := 6, title := "Product 1", quantity := none })
        (sendCartData
          (addItem initialState { id := "p1", price := 6, title := "Product 1", quantity := none })
          true)).changed = false) := by
  decide

/-- C3 amended: `changed` is set to `true` by `addItem` and by `removeItem`
on an existing id, and is never reset: `replaceCart` preserves it and a
`sendCartData` run (successful or not) dispatches no cart action at all,
so the whole state — in particular `changed` — is untouched by a sync. -/
theorem C3_changed_is_sticky :
    (∀ (s : CartState) (ok : Bool), applyEvents s (sendCartData s ok) = s) ∧
    (∀ (s : CartState) (q : ReplacePayload), (replaceCart s q).changed = s.changed) ∧
    (∀ (s : CartState) (q : AddPayload), (addItem s q).changed = true) ∧
    (∀ (s : CartState) (x : String) (e : CartLine),
        s.items.find? (fun i => i.id == x) = some e →
        (removeItem s x).changed = true) := by
  refine ⟨?_, ?_, ?_, ?_⟩
  · intro s ok
    cases ok <;> rfl
  · intro s q
    rfl
  · intro s q
    cases hfind : s.items.find? (fun i => i.id == q.id) with
    | none => rw [addItem_of_not_found s q hfind]
    | some e => rw [addItem_of_found s q e hfind]
  · intro s x e hfind
    by_cases hone : e.quantity = 1
    · rw [removeItem_of_found_one s x e hfind hone]
    · rw [removeItem_of_found_many s x e hfind hone]

/-- C3 amended witness: a successful send after one `addItem` leaves the
mutated state (hence `changed`) untouched, and an effective `removeItem`
sets `changed`. -/
theorem C3_changed_is_sticky_witness :
    (applyEvents
        (addItem initialState { id := "p1", price := 6, title := "Product 1", quantity := none })
        (sendCartData
          (addItem initialState { id := "p1", price := 6, title := "Product 1", quantity := none })
          true) =
      addItem initialState { id := "p1", price := 6, title := "Product 1", quantity := none }) ∧
    (removeItem
        { items := [{ id := "p1", name := "Product 1", price := 6,
                      quantity := 1, totalPrice := 6 }],
          totalQuantity := 1, changed := false } "p1").changed = true :=
  ⟨C3_changed_is_sticky.1
      (addItem initialState { id := "p1", price := 6, title := "Product 1", quantity := none }) true,
   C3_changed_is_sticky.2.2.2
      { items := [{ id := "p1", name := "Product 1", price := 6,
                    quantity := 1, totalPrice := 6 }],
        totalQuantity := 1, changed := false } "p1"
      { id := "p1", name := "Product 1", price := 6, quantity := 1, totalPrice := 6 } rfl⟩

/-- C8: when the initial-load fetch fails, `fetchcartData` dispatches
exactly one notification, of status "error" with no preceding "pending",
dispatches no cart action, and leaves any cart state — in particular the
initial empty cart — unchanged. -/
theorem C8_fetch_failure_leaves_cart :
    notifStatuses (fetchcartData .failure) = ["error"] ∧
    cartDispatches (fetchcartData .failure) = [] ∧
    (∀ s : CartState, applyEvents s (fetchcartData .failure) = s) ∧
    applyEvents initialState (fetchcartData .failure) = initialState :=
  ⟨rfl, rfl, fun _ => rfl, rfl⟩

/-- C9: `sendCartData` dispatches "pending" first, then issues exactly one
write carrying the `{items, totalQuantity}` snapshot, then dispatches
exactly one further notification — "success" exactly when the write
succeeded, "error" exactly when it failed — and never a second write
(no retry) and no cart action. -/
theorem C9_sendCartData_protocol (cart : CartState) (ok : Bool) :
    notifStatuses (sendCartData cart ok) =
      ["pending", if ok then "success" else "error"] ∧
    writes (sendCartData cart ok) = [(cart.items, cart.totalQuantity)] ∧
    (sendCartData cart ok).take 2 =
      [Event.notif "pending" "Sending request.. ⏳" "Sending cart data! 🛒⌛",
       Event.writeRequest cart.items cart.totalQuantity] ∧
    notifStatuses ((sendCartData cart ok).drop 2) =
      [if ok then "success" else "error"] ∧
    cartDispatches (sendCartData cart ok) = [] := by
  cases ok <;> exact ⟨rfl, rfl, rfl, rfl, rfl⟩
